import Mathlib

/-!
Verification of the shared-process worker runtime
(`src/vs/platform/sharedProcess/electron-browser/sharedProcessWorker.ts` and
`src/vs/platform/sharedProcess/common/sharedProcessWorkerService.ts`).

The TypeScript code is a single-threaded, event-driven reactor.  We embed it
shallowly: every handler becomes a pure Lean function from the relevant state
to a new state together with the list of observable actions it performs
(diagnostic `postMessage` calls, child kills, forks, relays, the global
`close()` call).  JavaScript reference-sharing effects that matter to the
claims — notably the shallow spread in `hash` — are made explicit by
returning the post-call value of the mutated object.
-/

set_option autoImplicit false

namespace SPW

/-- Embeds `ISharedProcessWorkerProcess` from `sharedProcessWorkerService.ts`. -/
structure WorkerProcessInfo where
  moduleId : String
  type : String
deriving DecidableEq, Repr

/-- The inline `reply` object of `ISharedProcessWorkerConfiguration`. -/
structure ReplyInfo where
  windowId : Int
  channel : String
  nonce : String
deriving DecidableEq, Repr

/-- Embeds `ISharedProcessWorkerConfiguration` from
`sharedProcessWorkerService.ts`. -/
structure ISharedProcessWorkerConfiguration where
  process : WorkerProcessInfo
  reply : ReplyInfo
deriving DecidableEq, Repr

/-- Embeds `ISharedProcessWorkerEnvironment` from `sharedProcessWorker.ts`. -/
structure ISharedProcessWorkerEnvironment where
  bootstrapPath : String
deriving DecidableEq, Repr

/--
Embeds `hash(configuration)` from `sharedProcessWorkerService.ts`
lines 41-46.

The source takes a shallow copy (`{ ...configuration }`), so the `reply`
field of the copy is a reference to the very same object as that of the
input, and the assignment `configurationCopy.reply.nonce = ''` also updates
the configuration held by the caller.  The underlying `hashObject` (from `vs/base/common/hash`, not
part of this repository) is an arbitrary deterministic function of the
structure and is passed in as a parameter.

The result is the pair of the hash value and the value that the
`configuration` object of the caller holds after the call (its
`reply.nonce` zeroed).
-/
def hash (hashObject : ISharedProcessWorkerConfiguration → Nat)
    (configuration : ISharedProcessWorkerConfiguration) :
    Nat × ISharedProcessWorkerConfiguration :=
  let configurationCopy :=
    { configuration with reply := { configuration.reply with nonce := "" } }
  (hashObject configurationCopy, configurationCopy)

/-- A forked child process handle: its OS pid and its IPC connection state. -/
structure Child where
  pid : Nat
  connected : Bool
deriving DecidableEq, Repr

/-- State of one `SharedProcessWorkerProcess` controller. -/
structure Controller where
  port : Nat
  configuration : ISharedProcessWorkerConfiguration
  environment : ISharedProcessWorkerEnvironment
  child : Option Child
  isDisposed : Bool
deriving DecidableEq, Repr

/-- Observable actions of the runtime: `postMessage` calls to the owner
(diagnostics, ready, request-port), process-level effects, relay sends and
the worker-global `close()`. -/
inductive Action where
  | postTrace (message : String)
  | postWarn (message : String)
  | postError (message : String)
  | postReady
  | postRequestPort
  | forkChild (pid : Nat) (bootstrapPath : String) (typeArg : String)
  | killChild (pid : Nat)
  | closeWorker
  | portPostMessage (data : String)
  | logToSink (entry : String)
  | childSend (data : List Nat)
deriving DecidableEq, Repr

/-- Registry state of `SharedProcessWorkerMain`: the
`mapConfigurationToProcess` map, embedded as an association list in insertion
order (a JS `Map` with unique keys). -/
structure MainState where
  map : List (Nat × Controller)
deriving DecidableEq, Repr

/-- Embeds `Map.get`: first (unique) entry with the given key. -/
def mapGet (m : List (Nat × Controller)) (k : Nat) : Option Controller :=
  match m with
  | [] => none
  | (k2, v) :: rest => if k2 = k then some v else mapGet rest k

/-- Embeds `Map.set`: replace the value of an existing key in place, else
append. -/
def mapSet (m : List (Nat × Controller)) (k : Nat) (v : Controller) :
    List (Nat × Controller) :=
  match m with
  | [] => [(k, v)]
  | (k2, v2) :: rest =>
      if k2 = k then (k, v) :: rest else (k2, v2) :: mapSet rest k v

/-- Embeds `Map.delete`: remove the entry with the given key, if any. -/
def mapDelete (m : List (Nat × Controller)) (k : Nat) :
    List (Nat × Controller) :=
  match m with
  | [] => []
  | (k2, v2) :: rest =>
      if k2 = k then mapDelete rest k else (k2, v2) :: mapDelete rest k

/-- Render a nullable exit code the way a JS template literal does
(`null` prints as `"null"`). -/
def showExitCode (code : Option Int) : String :=
  match code with
  | none => "null"
  | some n => toString n

/-- Render a nullable signal name the way a JS template literal does. -/
def showSignal (signal : Option String) : String :=
  match signal with
  | none => "null"
  | some s => s

/-- Embeds `SharedProcessWorkerProcess.dispose` (lines 234-240): set the disposed
flag, then kill the child if one was forked. -/
def dispose (p : Controller) : Controller × List Action :=
  ({ p with isDisposed := true },
   match p.child with
   | some c => [Action.killChild c.pid]
   | none => [])

/-- The `exit` handler installed by `spawn` (lines 171-179). -/
def handleExit (p : Controller) (code : Option Int) (signal : Option String) :
    List Action :=
  if p.isDisposed then []
  else if code ≠ some 0 ∧ signal ≠ some "SIGTERM" then
    [Action.postError ("Child process crashed with exit code "
      ++ showExitCode code ++ " and signal " ++ showSignal signal)]
  else []

/-- The `error` handler installed by `spawn` (line 168).  Unlike the exit and
relay callbacks it does not consult `isDisposed`. -/
def handleChildError (_p : Controller) (error : String) : List Action :=
  [Action.postWarn ("Error from child process: " ++ error)]

/-- A raw `message` event from the child, already discriminated by
`isRemoteConsoleLog` (external `vs/base/common/console` code): either a
remote console-log record or base64-encoded transport data. -/
inductive ChildMessage where
  | remoteConsoleLog (entry : String)
  | transportData (base64Data : String)
deriving DecidableEq, Repr

/-- The child→endpoint relay callback installed by `spawn` (lines 183-197,
with the `onMessage` subscription of line 213 inlined, as the emitter fires
synchronously): recognized console logs go to the log sink, anything else is
posted on the port (base64-decoding by the external `Buffer` code). -/
def handleRawMessage (p : Controller) (msg : ChildMessage) : List Action :=
  if p.isDisposed then []
  else
    match msg with
    | ChildMessage.remoteConsoleLog entry => [Action.logToSink entry]
    | ChildMessage.transportData data => [Action.portPostMessage data]

/-- Embeds `this.child?.connected`: false when no child was forked. -/
def childConnected (p : Controller) : Bool :=
  match p.child with
  | some c => c.connected
  | none => false

/-- The endpoint→child `send` closure of `spawn` (lines 199-209); the buffer
is a list of bytes, base64-encoding on send is done by external `Buffer`
code. -/
def send (p : Controller) (buffer : List Nat) : List Action :=
  if p.isDisposed then []
  else if childConnected p then [Action.childSend buffer]
  else [Action.postWarn "Unable to deliver message to disconnected child"]

/-- Embeds `SharedProcessWorkerProcess.spawn` (lines 157-217).  The call to `fork`
is external I/O: its outcome — a child handle, or a thrown error — is the
`forkResult` parameter.  When `fork` throws, the `this.child` assignment does
not happen and the exception propagates to the caller. -/
def spawn (p : Controller) (forkResult : Except String Child) :
    Except String Controller × List Action :=
  match forkResult with
  | Except.error e => (Except.error e, [Action.postTrace "Forking worker process"])
  | Except.ok c =>
      (Except.ok { p with child := some c },
       [Action.postTrace "Forking worker process",
        Action.forkChild c.pid p.environment.bootstrapPath
          ("--type=" ++ p.configuration.process.type)])

/-- Embeds `SharedProcessWorkerMain.terminate` (lines 128-140): hash the
configuration (mutating its nonce), look up the controller; when present,
dispose it, delete the map entry and call the worker-global `close()`.
Returns the new state, the post-call value of the configuration object of
the caller and the actions performed. -/
def terminate (hashObject : ISharedProcessWorkerConfiguration → Nat)
    (st : MainState) (configuration : ISharedProcessWorkerConfiguration) :
    MainState × ISharedProcessWorkerConfiguration × List Action :=
  let hashed := hash hashObject configuration
  match mapGet st.map hashed.1 with
  | some process =>
      ({ map := mapDelete st.map hashed.1 }, hashed.2,
       Action.postTrace "Terminating worker process"
         :: (dispose process).2 ++ [Action.closeWorker])
  | none => (st, hashed.2, [])

/-- Embeds `SharedProcessWorkerMain.onReceivePort` (lines 101-122): terminate any
existing process for the configuration, construct and spawn a fresh
controller, store it under the configuration hash and report readiness; a
spawn exception is caught and reported as an error diagnostic. -/
def onReceivePort (hashObject : ISharedProcessWorkerConfiguration → Nat)
    (st : MainState) (port : Nat)
    (configuration : ISharedProcessWorkerConfiguration)
    (environment : ISharedProcessWorkerEnvironment)
    (forkResult : Except String Child) : MainState × List Action :=
  let acts0 := [Action.postTrace "Received the message port and configuration"]
  let term := terminate hashObject st configuration
  let process : Controller :=
    { port := port, configuration := term.2.1, environment := environment,
      child := none, isDisposed := false }
  match spawn process forkResult with
  | (Except.error e, acts2) =>
      (term.1, acts0 ++ term.2.2 ++ acts2
        ++ [Action.postError ("Unexpected error forking worker process: " ++ e)])
  | (Except.ok process2, acts2) =>
      let hashed := hash hashObject term.2.1
      ({ map := mapSet term.1.map hashed.1 process2 },
       acts0 ++ term.2.2 ++ acts2
         ++ [Action.postTrace "Worker is ready", Action.postReady])

/-- The message ids of `SharedProcessWorkerMessages`. -/
def ReceivePortId : String :=
  "vscode:shared-process->shared-process-worker=receivePort"

/-- Id of the terminate control message. -/
def WorkerTerminateId : String :=
  "vscode:shared-process->shared-process-worker=terminate"

/-- Embeds `ISharedProcessToWorkerMessage`: id, configuration, optional
environment. -/
structure ISharedProcessToWorkerMessage where
  id : String
  configuration : ISharedProcessWorkerConfiguration
  environment : Option ISharedProcessWorkerEnvironment
deriving DecidableEq, Repr

/-- What the template literal of line 97 renders an object message as. -/
def jsStringify (_message : ISharedProcessToWorkerMessage) : String :=
  "[object Object]"

/-- Embeds `SharedProcessWorkerMain.notifyMessage` (lines 84-99).
`transferIsMessagePort` is `transfer[0] instanceof MessagePort`; `port` is
the transferred endpoint (only consulted when present).  A `ReceivePort`
whose guard fails just breaks out of the switch, with no action. -/
def notifyMessage (hashObject : ISharedProcessWorkerConfiguration → Nat)
    (st : MainState) (message : ISharedProcessToWorkerMessage)
    (transferIsMessagePort : Bool) (port : Nat)
    (forkResult : Except String Child) : MainState × List Action :=
  if message.id = ReceivePortId then
    match transferIsMessagePort, message.environment with
    | true, some environment =>
        onReceivePort hashObject st port message.configuration environment
          forkResult
    | _, _ => (st, [])
  else if message.id = WorkerTerminateId then
    let term := terminate hashObject st message.configuration
    (term.1, term.2.2)
  else
    (st, [Action.postWarn ("Unexpected message " ++ jsStringify message)])

/-- Whether an action is an Error-severity diagnostic message. -/
def isErrorDiag (a : Action) : Bool :=
  match a with
  | Action.postError _ => true
  | _ => false

/-! Concrete fixtures used by the witness and counterexample theorems. -/

/-- A sample configuration with a nonempty nonce. -/
def cfgA : ISharedProcessWorkerConfiguration :=
  { process := { moduleId := "m1", type := "t1" },
    reply := { windowId := 1, channel := "c", nonce := "a" } }

/-- The same configuration as `cfgA`, differing only in the nonce. -/
def cfgB : ISharedProcessWorkerConfiguration :=
  { process := { moduleId := "m1", type := "t1" },
    reply := { windowId := 1, channel := "c", nonce := "b" } }

/-- A sample environment. -/
def envA : ISharedProcessWorkerEnvironment :=
  { bootstrapPath := "/app/bootstrap-fork.js" }

/-- A connected child process handle. -/
def childA : Child := { pid := 42, connected := true }

/-- Another child process handle, for replacement spawns. -/
def childB : Child := { pid := 43, connected := true }

/-- A concrete, not yet disposed controller owning `childA`. -/
def ctrlLive : Controller :=
  { port := 1, configuration := (hash (fun _ => 0) cfgA).2, environment := envA,
    child := some childA, isDisposed := false }

/-- A concrete controller whose child is disconnected. -/
def ctrlDisconnected : Controller :=
  { port := 1, configuration := (hash (fun _ => 0) cfgA).2, environment := envA,
    child := some { pid := 42, connected := false }, isDisposed := false }

/-- A sample deterministic structure hash standing in for
`vs/base/common/hash`. -/
def hashFix (c : ISharedProcessWorkerConfiguration) : Nat :=
  c.process.moduleId.length + c.reply.nonce.length

/-- A registry holding exactly the `cfgA` slot. -/
def stOne : MainState := { map := [((hash hashFix cfgA).1, ctrlLive)] }

/-- A registry holding the `cfgA` slot plus an unrelated slot. -/
def stTwo : MainState :=
  { map := [((hash hashFix cfgA).1, ctrlLive), (99, ctrlDisconnected)] }

/-- The empty registry. -/
def stEmpty : MainState := { map := [] }

/-- A `ReceivePort` control message that carries no environment. -/
def msgNoEnv : ISharedProcessToWorkerMessage :=
  { id := ReceivePortId, configuration := cfgA, environment := none }

/-- A control message with an unrecognized id. -/
def msgUnknown : ISharedProcessToWorkerMessage :=
  { id := "vscode:something-else", configuration := cfgA, environment := none }

/-!  Helper lemmas shared by the claim theorems. -/

theorem mapGet_mapSet_self (m : List (Nat × Controller)) (k : Nat)
    (v : Controller) : mapGet (mapSet m k v) k = some v := by
  induction m with
  | nil => simp [mapSet, mapGet]
  | cons e rest ih =>
      obtain ⟨k2, v2⟩ := e
      by_cases h : k2 = k <;> simp [mapSet, mapGet, h, ih]

theorem mapGet_mapDelete_self (m : List (Nat × Controller)) (k : Nat) :
    mapGet (mapDelete m k) k = none := by
  induction m with
  | nil => simp [mapDelete, mapGet]
  | cons e rest ih =>
      obtain ⟨k2, v2⟩ := e
      by_cases h : k2 = k <;> simp [mapDelete, mapGet, h, ih]

/-- Zeroing the nonce twice is the same as zeroing it once: re-hashing the
post-call configuration gives the same key and leaves it unchanged. -/
theorem hash_nonce_idem (hashObject : ISharedProcessWorkerConfiguration → Nat)
    (c : ISharedProcessWorkerConfiguration) :
    hash hashObject (hash hashObject c).2 = hash hashObject c := by
  obtain ⟨p, r⟩ := c
  obtain ⟨w, ch, n⟩ := r
  rfl

/-- Claim C4: two configurations that differ only in `reply.nonce` get equal
fingerprint keys, for every deterministic structure hash. -/
theorem hash_ignores_nonce
    (hashObject : ISharedProcessWorkerConfiguration → Nat)
    (c1 c2 : ISharedProcessWorkerConfiguration)
    (hp : c1.process = c2.process)
    (hw : c1.reply.windowId = c2.reply.windowId)
    (hc : c1.reply.channel = c2.reply.channel) :
    (hash hashObject c1).1 = (hash hashObject c2).1 := by
  obtain ⟨p1, r1⟩ := c1
  obtain ⟨w1, ch1, n1⟩ := r1
  obtain ⟨p2, r2⟩ := c2
  obtain ⟨w2, ch2, n2⟩ := r2
  simp_all [hash]

/-- Witness for C4 at the concrete configurations `cfgA` and `cfgB`. -/
theorem hash_ignores_nonce_witness :
    (hash hashFix cfgA).1 = (hash hashFix cfgB).1 :=
  hash_ignores_nonce hashFix cfgA cfgB rfl rfl rfl

/-- Claim C5 fails on the code: `hash` takes only a shallow copy of the
configuration, so zeroing `reply.nonce` on the copy also clears
`reply.nonce` for the caller — shown here at a configuration whose nonce is `"a"` before
the call and `""` after it. -/
theorem hash_mutates_nonce :
    cfgA.reply.nonce = "a"
    ∧ (hash (fun _ => 0) cfgA).2.reply.nonce = "" :=
  ⟨rfl, rfl⟩

/-- Claim C6: an exit event is ignored after disposal; while not disposed, a
non-zero exit code together with a signal other than SIGTERM yields exactly
one Error diagnostic whose text carries the rendered code and signal, and a
clean exit (zero code, or SIGTERM) yields no diagnostic. -/
theorem exit_handler_reports_crashes (p : Controller) (code : Option Int)
    (signal : Option String) :
    (p.isDisposed = true → handleExit p code signal = [])
    ∧ (p.isDisposed = false → code ≠ some 0 → signal ≠ some "SIGTERM" →
        handleExit p code signal
          = [Action.postError ("Child process crashed with exit code "
              ++ showExitCode code ++ " and signal " ++ showSignal signal)])
    ∧ (p.isDisposed = false → (code = some 0 ∨ signal = some "SIGTERM") →
        handleExit p code signal = []) := by
  refine ⟨fun hd => ?_, fun hd hcode hsig => ?_, fun hd hclean => ?_⟩
  · simp [handleExit, hd]
  · simp [handleExit, hd, hcode, hsig]
  · rcases hclean with h | h <;> simp [handleExit, hd, h]

/-- Witness for C6: a live controller whose child exits with code 1 and no
signal emits the crash diagnostic. -/
theorem exit_handler_reports_crashes_witness :
    handleExit ctrlLive (some 1) none
      = [Action.postError ("Child process crashed with exit code "
          ++ showExitCode (some 1) ++ " and signal " ++ showSignal none)] :=
  (exit_handler_reports_crashes ctrlLive (some 1) none).2.1 rfl
    (by decide) (by decide)

/-- Claim C7: a send attempted while not disposed and with the child not
connected drops the buffer and emits exactly one Warn diagnostic (the
embedding is a total function, so the send never throws). -/
theorem send_disconnected_drops_and_warns (p : Controller) (buffer : List Nat)
    (hd : p.isDisposed = false) (hc : childConnected p = false) :
    send p buffer
      = [Action.postWarn "Unable to deliver message to disconnected child"] := by
  simp [send, hd, hc]

/-- Witness for C7 at a controller whose child is disconnected. -/
theorem send_disconnected_drops_and_warns_witness :
    send ctrlDisconnected [7, 8]
      = [Action.postWarn "Unable to deliver message to disconnected child"] :=
  send_disconnected_drops_and_warns ctrlDisconnected [7, 8] rfl rfl

/-- Claim C9: terminating a configuration whose fingerprint has no registry
entry changes nothing and emits no action (the configuration itself still
has its nonce zeroed by the `hash` call — see C5). -/
theorem terminate_absent_noop
    (hashObject : ISharedProcessWorkerConfiguration → Nat) (st : MainState)
    (configuration : ISharedProcessWorkerConfiguration)
    (habs : mapGet st.map (hash hashObject configuration).1 = none) :
    terminate hashObject st configuration
      = (st, (hash hashObject configuration).2, []) := by
  simp [terminate, habs]

/-- Witness for C9 on the empty registry. -/
theorem terminate_absent_noop_witness :
    terminate hashFix stEmpty cfgA = (stEmpty, (hash hashFix cfgA).2, []) :=
  terminate_absent_noop hashFix stEmpty cfgA rfl

/-- Claim C10: whenever `terminate` finds a registered controller it disposes
it, deletes the map entry and then unconditionally calls the worker-global
`close()` — for every registry state, so in particular also when controllers
for other fingerprints remain registered. -/
theorem terminate_found_closes_runtime
    (hashObject : ISharedProcessWorkerConfiguration → Nat) (st : MainState)
    (configuration : ISharedProcessWorkerConfiguration) (p : Controller)
    (hfound : mapGet st.map (hash hashObject configuration).1 = some p) :
    terminate hashObject st configuration
      = ({ map := mapDelete st.map (hash hashObject configuration).1 },
         (hash hashObject configuration).2,
         Action.postTrace "Terminating worker process"
           :: (dispose p).2 ++ [Action.closeWorker])
    ∧ Action.closeWorker ∈ (terminate hashObject st configuration).2.2 := by
  refine ⟨by simp [terminate, hfound], ?_⟩
  simp [terminate, hfound]

/-- Witness for C10: on a registry with a second, unrelated entry, the
terminate of `cfgA` still issues `close()`. -/
theorem terminate_found_closes_runtime_witness :
    Action.closeWorker ∈ (terminate hashFix stTwo cfgA).2.2 :=
  (terminate_found_closes_runtime hashFix stTwo cfgA ctrlLive rfl).2

/-- Claim C1: a `ReceivePort` handoff for a fingerprint that already has a
registered controller first disposes it (killing its child) and removes its
entry, and only then forks the replacement and stores it: the action trace
puts the kill and the `close()` strictly before the fork, and the final map
is an insert over the deleted slot. -/
theorem receivePort_replaces_prior_controller
    (hashObject : ISharedProcessWorkerConfiguration → Nat) (st : MainState)
    (port : Nat) (configuration : ISharedProcessWorkerConfiguration)
    (environment : ISharedProcessWorkerEnvironment)
    (oldCtrl : Controller) (oc newChild : Child)
    (hfound : mapGet st.map (hash hashObject configuration).1 = some oldCtrl)
    (hchild : oldCtrl.child = some oc) :
    onReceivePort hashObject st port configuration environment
        (Except.ok newChild)
      = ({ map := mapSet (mapDelete st.map (hash hashObject configuration).1)
                    (hash hashObject configuration).1
                    { port := port,
                      configuration := (hash hashObject configuration).2,
                      environment := environment,
                      child := some newChild, isDisposed := false } },
         [Action.postTrace "Received the message port and configuration",
          Action.postTrace "Terminating worker process",
          Action.killChild oc.pid,
          Action.closeWorker,
          Action.postTrace "Forking worker process",
          Action.forkChild newChild.pid environment.bootstrapPath
            ("--type=" ++ configuration.process.type),
          Action.postTrace "Worker is ready",
          Action.postReady]) := by
  have hidem := hash_nonce_idem hashObject configuration
  simp [onReceivePort, terminate, spawn, dispose, hfound, hchild, hidem]
  obtain ⟨pr, r⟩ := configuration
  rfl

/-- Witness for C1 at a one-entry registry: the second handoff for `cfgA`
kills `childA` before forking `childB`. -/
theorem receivePort_replaces_prior_controller_witness :
    (onReceivePort hashFix stOne 1 cfgA envA (Except.ok childB)).2
      = [Action.postTrace "Received the message port and configuration",
         Action.postTrace "Terminating worker process",
         Action.killChild childA.pid,
         Action.closeWorker,
         Action.postTrace "Forking worker process",
         Action.forkChild childB.pid envA.bootstrapPath
           ("--type=" ++ cfgA.process.type),
         Action.postTrace "Worker is ready",
         Action.postReady] := by
  have h := receivePort_replaces_prior_controller hashFix stOne 1 cfgA envA
    ctrlLive childA childB rfl rfl
  rw [h]

/-- Claim C2: when the fork throws during a `ReceivePort` handoff, the error
is caught, exactly one Error diagnostic is emitted, the fingerprint slot is
left empty and no WorkerReady message is posted. -/
theorem receivePort_spawn_failure_leaves_slot_empty
    (hashObject : ISharedProcessWorkerConfiguration → Nat) (st : MainState)
    (port : Nat) (configuration : ISharedProcessWorkerConfiguration)
    (environment : ISharedProcessWorkerEnvironment) (e : String) :
    mapGet (onReceivePort hashObject st port configuration environment
        (Except.error e)).1.map (hash hashObject configuration).1 = none
    ∧ (onReceivePort hashObject st port configuration environment
        (Except.error e)).2.filter isErrorDiag
      = [Action.postError ("Unexpected error forking worker process: " ++ e)]
    ∧ Action.postReady
        ∉ (onReceivePort hashObject st port configuration environment
            (Except.error e)).2 := by
  rcases hm : mapGet st.map (hash hashObject configuration).1 with _ | p
  · refine ⟨by simp [onReceivePort, terminate, spawn, hm], ?_, ?_⟩
    · simp [onReceivePort, terminate, spawn, hm, isErrorDiag]
    · simp [onReceivePort, terminate, spawn, hm]
  · rcases hc : p.child with _ | c
    · refine ⟨?_, ?_, ?_⟩ <;>
        simp [onReceivePort, terminate, spawn, dispose, hm, hc, isErrorDiag,
          mapGet_mapDelete_self]
    · refine ⟨?_, ?_, ?_⟩ <;>
        simp [onReceivePort, terminate, spawn, dispose, hm, hc, isErrorDiag,
          mapGet_mapDelete_self]

/-- Witness for C2: a failing fork over the one-entry registry leaves the
`cfgA` slot empty. -/
theorem receivePort_spawn_failure_leaves_slot_empty_witness :
    mapGet (onReceivePort hashFix stOne 1 cfgA envA
        (Except.error "fork failed")).1.map (hash hashFix cfgA).1 = none :=
  (receivePort_spawn_failure_leaves_slot_empty hashFix stOne 1 cfgA envA
    "fork failed").1

/-- Counterexample to claim C3: after `dispose()` the child `error` handler
still emits a Warn diagnostic — it is the one callback that does not consult
the disposed flag. -/
theorem disposed_error_event_still_warns :
    (dispose ctrlLive).1.isDisposed = true
    ∧ handleChildError (dispose ctrlLive).1 "boom"
        = [Action.postWarn "Error from child process: boom"] :=
  ⟨rfl, rfl⟩

/-- Claim C3 as amended: after disposal the relay callbacks in both
directions and the exit handler are silent no-ops, while a child error event
still produces exactly one Warn diagnostic, because the error handler does
not check the disposed state. -/
theorem disposed_callbacks_silent_except_error (p : Controller)
    (msg : ChildMessage) (buffer : List Nat) (code : Option Int)
    (signal : Option String) (err : String) (hd : p.isDisposed = true) :
    handleRawMessage p msg = []
    ∧ send p buffer = []
    ∧ handleExit p code signal = []
    ∧ handleChildError p err
        = [Action.postWarn ("Error from child process: " ++ err)] := by
  refine ⟨?_, ?_, ?_, rfl⟩ <;> simp [handleRawMessage, send, handleExit, hd]

/-- Witness for amended C3 on a concretely disposed controller. -/
theorem disposed_callbacks_silent_except_error_witness :
    handleRawMessage (dispose ctrlLive).1 (ChildMessage.transportData "AA==")
        = []
    ∧ send (dispose ctrlLive).1 [1] = []
    ∧ handleExit (dispose ctrlLive).1 (some 1) none = []
    ∧ handleChildError (dispose ctrlLive).1 "x"
        = [Action.postWarn ("Error from child process: " ++ "x")] :=
  disposed_callbacks_silent_except_error (dispose ctrlLive).1
    (ChildMessage.transportData "AA==") [1] (some 1) none "x" rfl

/-- Counterexample to claim C8: a `ReceivePort` message without an
environment is dropped with no diagnostic at all — the guard just breaks out
of the switch, so no warning is logged. -/
theorem receivePort_missing_environment_silent :
    notifyMessage hashFix stEmpty msgNoEnv true 0 (Except.ok childA)
      = (stEmpty, []) :=
  rfl

/-- Claim C8 as amended: an unrecognized message id is ignored after one
Warn diagnostic and changes no state; a `ReceivePort` whose transferred
endpoint is not a MessagePort or whose environment is missing is ignored
silently — no state change, but also no diagnostic. -/
theorem notifyMessage_rejects_malformed
    (hashObject : ISharedProcessWorkerConfiguration → Nat) (st : MainState)
    (message : ISharedProcessToWorkerMessage) (transferIsMessagePort : Bool)
    (port : Nat) (forkResult : Except String Child) :
    (message.id ≠ ReceivePortId → message.id ≠ WorkerTerminateId →
      notifyMessage hashObject st message transferIsMessagePort port forkResult
        = (st, [Action.postWarn ("Unexpected message " ++ jsStringify message)]))
    ∧ (message.id = ReceivePortId →
        transferIsMessagePort = false ∨ message.environment = none →
      notifyMessage hashObject st message transferIsMessagePort port forkResult
        = (st, [])) := by
  constructor
  · intro h1 h2
    simp [notifyMessage, h1, h2]
  · intro h1 h2
    rcases h2 with h2 | h2
    · subst h2
      rcases message.environment with _ | env <;> simp [notifyMessage, h1]
    · rcases transferIsMessagePort with _ | _ <;> simp [notifyMessage, h1, h2]

/-- Witness for amended C8: an unknown message id yields one warning and no
state change. -/
theorem notifyMessage_rejects_malformed_witness :
    notifyMessage hashFix stEmpty msgUnknown false 0 (Except.ok childA)
      = (stEmpty,
         [Action.postWarn ("Unexpected message " ++ jsStringify msgUnknown)]) :=
  (notifyMessage_rejects_malformed hashFix stEmpty msgUnknown false 0
    (Except.ok childA)).1 (by decide) (by decide)

end SPW
